import Mathlib

/-!
# Verification of the Aurum gold-price monitoring server (`src/server.js`)

Shallow embedding of the core logic of `src/server.js`: the price
converter, the threshold evaluator, the reference-data cache refresh, the
subscription registry and the evaluation cycle, together with the two HTTP
handlers `/api/monitor` and `/api/agent`.

JavaScript numbers are modelled as rationals (`ℚ`); the JavaScript
`Number(x)` coercion of a request field is modelled as `Option ℚ`, where
`none` stands for a missing or non-numeric value (`NaN`), and `some q` for
a finite numeric value.  Fallible operations (upstream fetches, the email
send) are modelled with `Except`; a JavaScript `try/catch` is modelled by
matching on the `Except` value and continuing on either branch.
-/

namespace Aurum

/-- `unit` field of a subscription or query: `"ounce"` or `"gram"`. -/
inductive WeightUnit : Type
  | ounce : WeightUnit
  | gram : WeightUnit
deriving DecidableEq, Repr

/-- `currency` field: `"USD"` or `"JOD"`. -/
inductive Currency : Type
  | usd : Currency
  | jod : Currency
deriving DecidableEq, Repr

/-- The tri-state status returned by `evaluateStatus` in `src/server.js`. -/
inductive Status : Type
  | below_range : Status
  | above_range : Status
  | within_range : Status
deriving DecidableEq, Repr

/-- `const TROY_OUNCE_IN_GRAMS = 31.1035` (src/server.js line 10). -/
def TROY_OUNCE_IN_GRAMS : ℚ := 311035 / 10000

/-- `const VALID_PURITY_LEVELS = new Set([24, 22, 21, 18])` (line 11). -/
def VALID_PURITY_LEVELS : List ℚ := [24, 22, 21, 18]

/-- `convertPrice({usdPerOunce, unit, currency, usdToJod, purity})`
(src/server.js lines 98–110).  `purity : Option ℚ` models the
`purity !== undefined` guard. -/
def convertPrice (usdPerOunce : ℚ) (unit : WeightUnit) (currency : Currency)
    (usdToJod : ℚ) (purity : Option ℚ) : ℚ :=
  let price₁ := if unit = WeightUnit.gram then usdPerOunce / TROY_OUNCE_IN_GRAMS else usdPerOunce
  let price₂ := if currency = Currency.jod then price₁ * usdToJod else price₁
  match purity with
  | none => price₂
  | some p => price₂ * (p / 24)

/-- `evaluateStatus(currentPrice, lowerThreshold, upperThreshold)`
(src/server.js lines 112–120). -/
def evaluateStatus (currentPrice lowerThreshold upperThreshold : ℚ) : Status :=
  if currentPrice < lowerThreshold then Status.below_range
  else if currentPrice > upperThreshold then Status.above_range
  else Status.within_range

/-- `Number(x.toFixed(4))`: rounding to four decimal places, as performed
by `buildPayload` (line 124) and the `/api/price` handler (line 223). -/
def round4 (x : ℚ) : ℚ := (round (x * 10000) : ℤ) / 10000

/-- The user-facing payload constructed by `buildPayload`
(src/server.js lines 122–132); the timestamp is omitted (wall-clock). -/
structure Payload : Type where
  current_price : ℚ
  unit : WeightUnit
  currency : Currency
  lower_threshold : ℚ
  upper_threshold : ℚ
  status : Status
deriving DecidableEq, Repr

/-- `buildPayload({currentPrice, unit, currency, lowerThreshold,
upperThreshold, status})` (src/server.js lines 122–132): the only place
where currency rounding happens. -/
def buildPayload (currentPrice : ℚ) (unit : WeightUnit) (currency : Currency)
    (lowerThreshold upperThreshold : ℚ) (status : Status) : Payload :=
  ⟨round4 currentPrice, unit, currency, lowerThreshold, upperThreshold, status⟩

/-- A stored subscription (the value type of the `subscriptions` map,
src/server.js lines 248–256).  `purity` is always a concrete number for a
stored subscription because registration normalizes it; `lastStatus` is
`none` for `undefined`. -/
structure Subscription : Type where
  email : String
  unit : WeightUnit
  currency : Currency
  purity : ℚ
  lower_threshold : ℚ
  upper_threshold : ℚ
  lastStatus : Option Status
deriving DecidableEq, Repr

/-- The module-level reference-data cache (src/server.js lines 14–16):
`latestUsdPricePerOunce`, `latestUsdToJodRate` (both `null` until first
successful refresh) and `latestFetchError` (`null` or the recorded
error, modelled by its message). -/
structure RefState : Type where
  latestUsdPricePerOunce : Option ℚ
  latestUsdToJodRate : Option ℚ
  latestFetchError : Option String
deriving DecidableEq, Repr

/-- An alert that the evaluation cycle hands to `sendAlertEmail`
(src/server.js line 193): the recipient and the breach direction. -/
structure Alert : Type where
  email : String
  breached : String
deriving DecidableEq, Repr

/-- The `breached` string computed at src/server.js lines 187–190. -/
def breachedOf (status : Status) : String :=
  if status = Status.below_range then "below lower threshold" else "above upper threshold"

/-- One iteration of the `for` loop of `evaluateSubscriptions`
(src/server.js lines 157–199) for a single subscription: convert the
price, evaluate the status, overwrite `lastStatus`, and decide whether an
alert is dispatched (`none` = no dispatch attempted). -/
def stepSub (price rate : ℚ) (s : Subscription) : Subscription × Option Alert :=
  let currentPrice := convertPrice price s.unit s.currency rate (some s.purity)
  let status := evaluateStatus currentPrice s.lower_threshold s.upper_threshold
  let previousStatus := s.lastStatus
  let s' := { s with lastStatus := some status }
  (s',
   if status = Status.within_range then none
   else if previousStatus ≠ some status then some ⟨s.email, breachedOf status⟩
   else none)

/-- `evaluateSubscriptions()` (src/server.js lines 152–200): if the cache
is errored or either reference value is `null`, return immediately
(registry unchanged, nothing dispatched); otherwise process every
subscription with `stepSub`.  The second component lists, in registry
order, the dispatch attempted for each subscription (`none` if that
subscription triggered no dispatch). -/
def evaluateSubscriptions (st : RefState) (subs : List Subscription) :
    List Subscription × List (Option Alert) :=
  match st.latestFetchError, st.latestUsdPricePerOunce, st.latestUsdToJodRate with
  | none, some price, some rate =>
      (subs.map (fun s => (stepSub price rate s).1), subs.map (fun s => (stepSub price rate s).2))
  | _, _, _ => (subs, [])

/-- The guard of src/server.js line 153: the cycle (and the `/api/price`
and `/api/agent` data paths) is blocked when the cache is errored or not
yet populated. -/
def cacheBlocked (st : RefState) : Prop :=
  st.latestFetchError ≠ none ∨ st.latestUsdPricePerOunce = none ∨ st.latestUsdToJodRate = none

instance (st : RefState) : Decidable (cacheBlocked st) := by
  unfold cacheBlocked; infer_instance

/-- `await Promise.all([fetchGoldPriceUsdPerOunce(), fetchUsdToJodRate()])`
(src/server.js lines 79–82): succeeds with both values only if both
fetches succeed; rejects with the first listed rejection otherwise. -/
def fetchBoth (gold fx : Except String ℚ) : Except String (ℚ × ℚ) := do
  let g ← gold
  let f ← fx
  pure (g, f)

/-- `refreshReferencePrices()` (src/server.js lines 77–95), as a function
of the outcomes of the two upstream fetches.  The return type `Except`
models whether an exception escapes to the caller: the `try/catch`
surrounding the whole body means the error branch only records the error
in the cache (`latestFetchError`) and leaves the previous values in
place, so the result is always `Except.ok`. -/
def refreshReferencePrices (st : RefState) (gold fx : Except String ℚ) :
    Except String RefState :=
  match fetchBoth gold fx with
  | Except.ok (g, f) => Except.ok ⟨some g, some f, none⟩
  | Except.error e => Except.ok { st with latestFetchError := some e }

/-- `sendAlertEmail({to, payload, breached})` (src/server.js lines
134–150), as a function of whether the SMTP transport is configured
(`getEmailTransporter() !== null`) and whether the actual send rejects.
Unconfigured transport is a logged no-op (`Except.ok`); a failed send
rejects (`Except.error`), to be caught by the caller. -/
def sendAlertEmail (configured : Bool) (sendFails : Bool) : Except String Unit :=
  if configured = false then Except.ok Unit.unit
  else if sendFails = true then Except.error "send failed" else Except.ok Unit.unit

/-- One iteration of the evaluation loop including the dispatch attempt
and its `try/catch` (src/server.js lines 192–196): when an alert is due,
`sendAlertEmail` is invoked, and its outcome — success or caught error —
does not change the updated subscription or the fact that a dispatch was
attempted. -/
def stepSubWithDispatch (configured : Bool) (sendFails : String → Bool)
    (price rate : ℚ) (s : Subscription) : Subscription × Option Alert :=
  match stepSub price rate s with
  | (s', none) => (s', none)
  | (s', some a) =>
      match sendAlertEmail configured (sendFails s.email) with
      | Except.ok _ => (s', some a)
      | Except.error _ => (s', some a)

/-- `evaluateSubscriptions()` with the dispatch effect made explicit:
like `evaluateSubscriptions`, but each due alert goes through
`sendAlertEmail` under the loop's `try/catch`. -/
def evaluateSubscriptionsWithDispatch (configured : Bool)
    (sendFails : String → Bool) (st : RefState) (subs : List Subscription) :
    List Subscription × List (Option Alert) :=
  match st.latestFetchError, st.latestUsdPricePerOunce, st.latestUsdToJodRate with
  | none, some price, some rate =>
      (subs.map (fun s => (stepSubWithDispatch configured sendFails price rate s).1),
       subs.map (fun s => (stepSubWithDispatch configured sendFails price rate s).2))
  | _, _, _ => (subs, [])

/-- `unit === "gram" ? "gram" : "ounce"` (src/server.js lines 203, 244,
266). -/
def normalizeUnit (u : Option String) : WeightUnit :=
  if u = some "gram" then WeightUnit.gram else WeightUnit.ounce

/-- `currency === "JOD" ? "JOD" : "USD"` (src/server.js lines 204, 245,
267). -/
def normalizeCurrency (c : Option String) : Currency :=
  if c = some "JOD" then Currency.jod else Currency.usd

/-- `VALID_PURITY_LEVELS.has(Number(purity)) ? Number(purity) : 24`
(src/server.js lines 206, 246, 271); `none` models a missing or
non-numeric `purity` (whose `Number` coercion `NaN` is in no set). -/
def normalizePurity (purity : Option ℚ) : ℚ :=
  match purity with
  | some p => if p ∈ VALID_PURITY_LEVELS then p else 24
  | none => 24

/-- Response of the `POST /api/monitor` handler. -/
inductive MonitorResult : Type
  | badRequest : String → MonitorResult
  | monitoring : String → MonitorResult
deriving DecidableEq, Repr

/-- `subscriptions.set(email, …)`: the registry is modelled as a list
keyed by `email`; `set` replaces the entry with the same key or appends. -/
def setSub : List Subscription → Subscription → List Subscription
  | [], s => [s]
  | t :: ts, s => if t.email = s.email then s :: ts else t :: setSub ts s

/-- The validation and store part of the `POST /api/monitor` handler
(src/server.js lines 230–256): identity check, threshold
parsing/validation, normalization, and the registry write with
`lastStatus: undefined`.  The subsequent immediate
`await evaluateSubscriptions()` (line 259) is the separate
`evaluateSubscriptions` above, run by the server after a successful
store.  `email = none` models a missing or non-string `email`; the empty
string is falsy in JavaScript and also rejected.  `lower`/`upper` are the
`Number(…)` coercions of the two threshold fields (`none` = non-finite). -/
def postMonitor (regs : List Subscription) (email : Option String)
    (unit currency : Option String) (lower upper purity : Option ℚ) :
    MonitorResult × List Subscription :=
  match email with
  | none => (MonitorResult.badRequest "Valid email is required.", regs)
  | some e =>
      if e = "" then (MonitorResult.badRequest "Valid email is required.", regs)
      else
        match lower, upper with
        | some lo, some up =>
            if lo ≥ up then
              (MonitorResult.badRequest "Thresholds must be numeric and lower < upper.", regs)
            else
              (MonitorResult.monitoring e,
               setSub regs
                 ⟨e, normalizeUnit unit, normalizeCurrency currency,
                  normalizePurity purity, lo, up, none⟩)
        | _, _ =>
            (MonitorResult.badRequest "Thresholds must be numeric and lower < upper.", regs)

/-- Response of the `GET /api/agent` handler. -/
inductive AgentResult : Type
  | badRequest : String → AgentResult
  | unavailable : String → AgentResult
  | payloadOk : Payload → AgentResult
deriving DecidableEq, Repr

/-- The `GET /api/agent` handler (src/server.js lines 265–300):
normalize the query, validate the thresholds (400 on failure), then check
data availability (503), then convert, evaluate and build the payload. -/
def getAgent (st : RefState) (unit currency : Option String)
    (lower upper purity : Option ℚ) : AgentResult :=
  let u := normalizeUnit unit
  let c := normalizeCurrency currency
  let np := normalizePurity purity
  match lower, upper with
  | some lo, some up =>
      if lo ≥ up then AgentResult.badRequest "Thresholds must be numeric and lower < upper."
      else
        match st.latestFetchError, st.latestUsdPricePerOunce, st.latestUsdToJodRate with
        | none, some price, some rate =>
            let currentPrice := convertPrice price u c rate (some np)
            let status := evaluateStatus currentPrice lo up
            AgentResult.payloadOk (buildPayload currentPrice u c lo up status)
        | _, _, _ => AgentResult.unavailable "Price data currently unavailable."
  | _, _ => AgentResult.badRequest "Thresholds must be numeric and lower < upper."

/-! ## Helper lemmas -/

/-- `convertPrice` written as a product of the base price and three
independent conditional factors. -/
lemma convertPrice_factored (b : ℚ) (u : WeightUnit) (c : Currency) (r : ℚ)
    (pur : Option ℚ) :
    convertPrice b u c r pur =
      b * (if u = WeightUnit.gram then 1 / TROY_OUNCE_IN_GRAMS else 1) *
        (if c = Currency.jod then r else 1) *
        (pur.elim 1 (fun p => p / 24)) := by
  cases u <;> cases c <;> cases pur <;>
    simp only [convertPrice, Option.elim, reduceIte, reduceCtorEq] <;> ring

/-- The troy-ounce constant is greater than `1`. -/
lemma one_lt_troy : (1 : ℚ) < TROY_OUNCE_IN_GRAMS := by
  norm_num [TROY_OUNCE_IN_GRAMS]

/-! ## Claims -/

/-- **C3.** `evaluateStatus` always returns one of the three statuses;
under the caller-enforced invariant `lower ≤ upper` both boundary values
evaluate to `within_range`; and the `price < lower` comparison takes
precedence unconditionally, even when `lower < upper` is violated. -/
theorem evaluateStatus_trichotomy_boundaries_precedence :
    (∀ p l u : ℚ, evaluateStatus p l u = Status.below_range ∨
      evaluateStatus p l u = Status.above_range ∨
      evaluateStatus p l u = Status.within_range) ∧
    (∀ l u : ℚ, l ≤ u →
      evaluateStatus l l u = Status.within_range ∧
      evaluateStatus u l u = Status.within_range) ∧
    (∀ p l u : ℚ, p < l → evaluateStatus p l u = Status.below_range) := by
  refine ⟨?_, ?_, ?_⟩
  · intro p l u
    unfold evaluateStatus
    split_ifs <;> simp
  · intro l u h
    constructor <;> · unfold evaluateStatus; split_ifs <;> first | rfl | linarith
  · intro p l u h
    unfold evaluateStatus
    split_ifs <;> first | rfl | linarith

/-- Witness for C3 at concrete inputs, boundaries `30 ≤ 40` and the
inverted band `(40, 30)` with price `20 < 40`. -/
theorem evaluateStatus_trichotomy_boundaries_precedence_witness :
    evaluateStatus 30 30 40 = Status.within_range ∧
    evaluateStatus 40 30 40 = Status.within_range ∧
    evaluateStatus 20 40 30 = Status.below_range := by
  refine ⟨(evaluateStatus_trichotomy_boundaries_precedence.2.1 30 40 (by norm_num)).1,
    (evaluateStatus_trichotomy_boundaries_precedence.2.1 30 40 (by norm_num)).2,
    evaluateStatus_trichotomy_boundaries_precedence.2.2 20 40 30 (by norm_num)⟩

/-- **C4.** `convertPrice` is the base price with exactly three
conditional multiplicative factors — `1/31.1035` for grams, the exchange
rate for JOD, `purity/24` when a purity is given — with no rounding: the
result is the exact product, and the four-decimal rounding appears only
in `buildPayload`. -/
theorem convertPrice_three_conditional_factors :
    (∀ (b : ℚ) (u : WeightUnit) (c : Currency) (r : ℚ) (pur : Option ℚ),
      convertPrice b u c r pur =
        b * (if u = WeightUnit.gram then 1 / TROY_OUNCE_IN_GRAMS else 1) *
          (if c = Currency.jod then r else 1) *
          (pur.elim 1 (fun p => p / 24))) ∧
    (∀ (cp : ℚ) (u : WeightUnit) (c : Currency) (lo up : ℚ) (st : Status),
      (buildPayload cp u c lo up st).current_price = round4 cp) := by
  exact ⟨convertPrice_factored, fun cp u c lo up st => rfl⟩

/-- **C8.** For positive base price and exchange rate, `convertPrice` is
monotonically increasing in the purity argument, and with unit `gram` it
is strictly smaller than with unit `ounce` on otherwise identical
inputs. -/
theorem convertPrice_purity_monotone_and_gram_lt_ounce :
    (∀ (b r : ℚ) (u : WeightUnit) (c : Currency) (p q : ℚ),
      0 < b → 0 < r → 0 ≤ p → p ≤ q →
      convertPrice b u c r (some p) ≤ convertPrice b u c r (some q)) ∧
    (∀ (b r : ℚ) (c : Currency) (p : ℚ), 0 < b → 0 < r → 0 < p →
      convertPrice b WeightUnit.gram c r (some p) <
        convertPrice b WeightUnit.ounce c r (some p)) := by
  have htroy : (0 : ℚ) < TROY_OUNCE_IN_GRAMS := lt_trans one_pos one_lt_troy
  constructor
  · intro b r u c p q hb hr hp hpq
    rw [convertPrice_factored, convertPrice_factored]
    have hu : (0 : ℚ) < (if u = WeightUnit.gram then 1 / TROY_OUNCE_IN_GRAMS else 1) := by
      split_ifs <;> positivity
    have hc : (0 : ℚ) < (if c = Currency.jod then r else 1) := by
      split_ifs <;> positivity
    simp only [Option.elim]
    have hbase : (0 : ℚ) ≤ b * (if u = WeightUnit.gram then 1 / TROY_OUNCE_IN_GRAMS else 1) *
        (if c = Currency.jod then r else 1) := by positivity
    have : p / 24 ≤ q / 24 := by linarith
    exact mul_le_mul_of_nonneg_left this hbase
  · intro b r c p hb hr hp
    have hbt : b / TROY_OUNCE_IN_GRAMS < b := div_lt_self hb one_lt_troy
    have h24 : (0 : ℚ) < p / 24 := by positivity
    cases c <;> simp only [convertPrice, Option.elim, reduceIte, reduceCtorEq]
    · exact mul_lt_mul_of_pos_right hbt h24
    · exact mul_lt_mul_of_pos_right (mul_lt_mul_of_pos_right hbt hr) h24

/-- Witness for C8: base `2000`, rate `0.71`, purities `18 ≤ 24`, and the
strict gram/ounce comparison at purity `21`. -/
theorem convertPrice_purity_monotone_and_gram_lt_ounce_witness :
    convertPrice 2000 WeightUnit.ounce Currency.jod (71/100) (some 18) ≤
      convertPrice 2000 WeightUnit.ounce Currency.jod (71/100) (some 24) ∧
    convertPrice 2000 WeightUnit.gram Currency.usd (71/100) (some 21) <
      convertPrice 2000 WeightUnit.ounce Currency.usd (71/100) (some 21) := by
  exact ⟨convertPrice_purity_monotone_and_gram_lt_ounce.1 2000 (71/100)
      WeightUnit.ounce Currency.jod 18 24 (by norm_num) (by norm_num) (by norm_num) (by norm_num),
    convertPrice_purity_monotone_and_gram_lt_ounce.2 2000 (71/100)
      Currency.usd 21 (by norm_num) (by norm_num) (by norm_num)⟩

/-- **C9 (counterexample).** At base price `2000` USD/oz, rate `0.71`,
unit `gram`, currency `JOD`, purity `21`, the derived price rounded to
four decimals is NOT `39.9163` as the spec scenario states. -/
theorem derived_price_scenario_not_spec_value :
    round4 (convertPrice 2000 WeightUnit.gram Currency.jod (71/100) (some 21)) ≠
      399163 / 10000 := by
  simp only [convertPrice, round4, TROY_OUNCE_IN_GRAMS]
  norm_num [round_eq]

/-- **C9 (amended).** The derived price for that scenario equals
`2000 / 31.1035 × 0.71 × 21/24` exactly; rounded to four decimals it is
`39.9473`; and evaluated against the band `[30, 40]` it is
`within_range`. -/
theorem derived_price_scenario_value :
    convertPrice 2000 WeightUnit.gram Currency.jod (71/100) (some 21) =
      2000 / TROY_OUNCE_IN_GRAMS * (71/100) * (21/24) ∧
    round4 (convertPrice 2000 WeightUnit.gram Currency.jod (71/100) (some 21)) =
      399473 / 10000 ∧
    evaluateStatus (convertPrice 2000 WeightUnit.gram Currency.jod (71/100) (some 21))
      30 40 = Status.within_range := by
  refine ⟨?_, ?_, ?_⟩
  · simp only [convertPrice, TROY_OUNCE_IN_GRAMS]
    norm_num
  · simp only [convertPrice, round4, TROY_OUNCE_IN_GRAMS]
    norm_num [round_eq]
  · simp only [convertPrice, evaluateStatus, TROY_OUNCE_IN_GRAMS]
    norm_num

/-- **C5.** `refreshReferencePrices` never propagates an error to its
caller; on success of both fetches it replaces both cached values and
clears the error; on failure of either fetch it leaves the previously
stored values untouched and records the error. -/
theorem refreshReferencePrices_contains_failures :
    (∀ (st : RefState) (gold fx : Except String ℚ),
      ∃ st', refreshReferencePrices st gold fx = Except.ok st') ∧
    (∀ (st : RefState) (g f : ℚ),
      refreshReferencePrices st (Except.ok g) (Except.ok f) =
        Except.ok ⟨some g, some f, none⟩) ∧
    (∀ (st : RefState) (e : String) (fx : Except String ℚ),
      refreshReferencePrices st (Except.error e) fx =
        Except.ok { st with latestFetchError := some e }) ∧
    (∀ (st : RefState) (g : ℚ) (e : String),
      refreshReferencePrices st (Except.ok g) (Except.error e) =
        Except.ok { st with latestFetchError := some e }) := by
  refine ⟨?_, ?_, ?_, ?_⟩
  · intro st gold fx
    cases gold <;> cases fx <;> exact ⟨_, rfl⟩
  · intro st g f
    rfl
  · intro st e fx
    cases fx <;> rfl
  · intro st g e
    rfl

/-- **C6.** `POST /api/monitor`: a missing identity, a missing or
non-numeric threshold, or `lower ≥ upper` is rejected with a validation
error and leaves the registry unchanged; otherwise the subscription is
stored via `setSub` with unit, currency and purity normalized and
`lastStatus` unset, where the purity survives normalization only if it is
in `{24, 22, 21, 18}`. -/
theorem postMonitor_validation_and_store :
    (∀ (regs : List Subscription) (email : Option String)
        (unit currency : Option String) (lower upper purity : Option ℚ),
      email = none ∨ email = some "" →
      postMonitor regs email unit currency lower upper purity =
        (MonitorResult.badRequest "Valid email is required.", regs)) ∧
    (∀ (regs : List Subscription) (e : String)
        (unit currency : Option String) (lower upper purity : Option ℚ),
      e ≠ "" →
      (lower = none ∨ upper = none ∨
        ∃ lo up, lower = some lo ∧ upper = some up ∧ up ≤ lo) →
      postMonitor regs (some e) unit currency lower upper purity =
        (MonitorResult.badRequest "Thresholds must be numeric and lower < upper.", regs)) ∧
    (∀ (regs : List Subscription) (e : String)
        (unit currency : Option String) (lo up : ℚ) (purity : Option ℚ),
      e ≠ "" → lo < up →
      postMonitor regs (some e) unit currency (some lo) (some up) purity =
        (MonitorResult.monitoring e,
         setSub regs
           ⟨e, normalizeUnit unit, normalizeCurrency currency,
            normalizePurity purity, lo, up, none⟩)) ∧
    (∀ purity : Option ℚ, normalizePurity purity = 24 ∨
      ∃ q, purity = some q ∧ q ∈ VALID_PURITY_LEVELS ∧ normalizePurity purity = q) := by
  refine ⟨?_, ?_, ?_, ?_⟩
  · intro regs email unit currency lower upper purity h
    rcases h with h | h <;> subst h <;> simp [postMonitor]
  · intro regs e unit currency lower upper purity he h
    rcases h with h | h | ⟨lo, up, h1, h2, h3⟩
    · subst h
      cases upper <;> simp [postMonitor, he]
    · subst h
      cases lower <;> simp [postMonitor, he]
    · subst h1; subst h2
      simp [postMonitor, he, not_lt.mpr h3, le_of_lt, ge_iff_le, h3]
  · intro regs e unit currency lo up purity he h
    simp [postMonitor, he, not_le.mpr h, ge_iff_le]
  · intro purity
    cases purity with
    | none => exact Or.inl rfl
    | some q =>
        by_cases hq : q ∈ VALID_PURITY_LEVELS
        · exact Or.inr ⟨q, rfl, hq, by simp [normalizePurity, hq]⟩
        · exact Or.inl (by simp [normalizePurity, hq])

/-- Witness for C6: an inverted band `lower = 40 ≥ upper = 30` is rejected
without touching a one-element registry, and a valid registration is
stored normalized with `lastStatus` unset. -/
theorem postMonitor_validation_and_store_witness :
    postMonitor [⟨"b@x.com", WeightUnit.ounce, Currency.usd, 24, 1, 2, none⟩]
        (some "a@x.com") none none (some 40) (some 30) none =
      (MonitorResult.badRequest "Thresholds must be numeric and lower < upper.",
       [⟨"b@x.com", WeightUnit.ounce, Currency.usd, 24, 1, 2, none⟩]) ∧
    postMonitor [] (some "a@x.com") (some "gram") (some "JOD") (some 30) (some 40) (some 21) =
      (MonitorResult.monitoring "a@x.com",
       [⟨"a@x.com", WeightUnit.gram, Currency.jod, 21, 30, 40, none⟩]) := by
  constructor
  · exact postMonitor_validation_and_store.2.1
      [⟨"b@x.com", WeightUnit.ounce, Currency.usd, 24, 1, 2, none⟩]
      "a@x.com" none none (some 40) (some 30) none (by simp)
      (Or.inr (Or.inr ⟨40, 30, rfl, rfl, by norm_num⟩))
  · have h := postMonitor_validation_and_store.2.2.1 []
      "a@x.com" (some "gram") (some "JOD") 30 40 (some 21) (by simp) (by norm_num)
    rw [h]
    simp [setSub, normalizeUnit, normalizeCurrency, normalizePurity, VALID_PURITY_LEVELS]

/-- **C10.** `GET /api/agent` checks threshold validity before data
availability: a request with missing, non-numeric or inverted thresholds
receives the 400 validation error for every cache state, including an
errored or unpopulated cache — never the 503. -/
theorem getAgent_validation_before_availability :
    ∀ (st : RefState) (unit currency : Option String) (lower upper purity : Option ℚ),
      (lower = none ∨ upper = none ∨
        ∃ lo up, lower = some lo ∧ upper = some up ∧ up ≤ lo) →
      getAgent st unit currency lower upper purity =
        AgentResult.badRequest "Thresholds must be numeric and lower < upper." := by
  intro st unit currency lower upper purity h
  rcases h with h | h | ⟨lo, up, h1, h2, h3⟩
  · subst h
    cases upper <;> rfl
  · subst h
    cases lower <;> rfl
  · subst h1; subst h2
    simp [getAgent, ge_iff_le, h3]

/-- Witness for C10: thresholds `40 ≥ 30` on an errored, unpopulated
cache still produce the validation error. -/
theorem getAgent_validation_before_availability_witness :
    getAgent ⟨none, none, some "fetch failed"⟩ none none (some 40) (some 30) none =
      AgentResult.badRequest "Thresholds must be numeric and lower < upper." :=
  getAgent_validation_before_availability ⟨none, none, some "fetch failed"⟩
    none none (some 40) (some 30) none
    (Or.inr (Or.inr ⟨40, 30, rfl, rfl, by norm_num⟩))

/-- The status the evaluation cycle computes for a subscription under the
given reference price and exchange rate (src/server.js lines 158–169). -/
def subStatus (price rate : ℚ) (s : Subscription) : Status :=
  evaluateStatus (convertPrice price s.unit s.currency rate (some s.purity))
    s.lower_threshold s.upper_threshold

/-- The updated-subscription component of `stepSub`: `lastStatus` is
always overwritten with the freshly computed status. -/
lemma stepSub_fst (price rate : ℚ) (s : Subscription) :
    (stepSub price rate s).1 = { s with lastStatus := some (subStatus price rate s) } :=
  rfl

/-- The dispatch component of `stepSub`: an alert is attempted exactly
when the new status is not `within_range` and differs from the stored
`lastStatus`. -/
lemma stepSub_snd (price rate : ℚ) (s : Subscription) :
    (stepSub price rate s).2 =
      if subStatus price rate s ≠ Status.within_range ∧
          s.lastStatus ≠ some (subStatus price rate s)
      then some ⟨s.email, breachedOf (subStatus price rate s)⟩ else none := by
  simp only [stepSub, subStatus]
  by_cases h1 : evaluateStatus (convertPrice price s.unit s.currency rate (some s.purity))
      s.lower_threshold s.upper_threshold = Status.within_range
  · simp [h1]
  · by_cases h2 : s.lastStatus =
        some (evaluateStatus (convertPrice price s.unit s.currency rate (some s.purity))
          s.lower_threshold s.upper_threshold)
    · simp [h1, h2]
    · simp [h1, h2]

/-- **C1.** When the cache is usable, the evaluation cycle processes the
`i`-th subscription by unconditionally overwriting its `lastStatus` with
the newly computed status, and attempts a dispatch for it if and only if
that status is not `within_range` and differs from the previously stored
`lastStatus`; in particular an unset `lastStatus` with an out-of-range
status yields exactly one dispatch (that subscription's slot is `some`). -/
theorem evaluateSubscriptions_per_subscription :
    ∀ (st : RefState) (subs : List Subscription) (price rate : ℚ) (i : ℕ)
      (s : Subscription),
      st.latestFetchError = none →
      st.latestUsdPricePerOunce = some price →
      st.latestUsdToJodRate = some rate →
      subs[i]? = some s →
      (evaluateSubscriptions st subs).1[i]? =
        some { s with lastStatus := some (subStatus price rate s) } ∧
      (evaluateSubscriptions st subs).2[i]? =
        some (if subStatus price rate s ≠ Status.within_range ∧
                s.lastStatus ≠ some (subStatus price rate s)
              then some ⟨s.email, breachedOf (subStatus price rate s)⟩ else none) ∧
      (s.lastStatus = none → subStatus price rate s ≠ Status.within_range →
        (evaluateSubscriptions st subs).2[i]? =
          some (some ⟨s.email, breachedOf (subStatus price rate s)⟩)) := by
  intro st subs price rate i s h1 h2 h3 hs
  obtain ⟨p, r, e⟩ := st
  simp only at h1 h2 h3
  subst h1; subst h2; subst h3
  refine ⟨?_, ?_, ?_⟩
  · simp only [evaluateSubscriptions, List.getElem?_map, hs, Option.map_some']
    rw [stepSub_fst]
  · simp only [evaluateSubscriptions, List.getElem?_map, hs, Option.map_some']
    rw [stepSub_snd]
  · intro hnone hnw
    simp only [evaluateSubscriptions, List.getElem?_map, hs, Option.map_some']
    rw [stepSub_snd]
    simp [hnone, hnw]

/-- Witness for C1: one freshly registered subscription (unset
`lastStatus`, band `[1900, 2100]`) at cached price `2200` USD/oz gets
`lastStatus` set to `above_range` and exactly one dispatch, direction
"above upper threshold". -/
theorem evaluateSubscriptions_per_subscription_witness :
    (evaluateSubscriptions ⟨some 2200, some 1, none⟩
        [⟨"a@x.com", WeightUnit.ounce, Currency.usd, 24, 1900, 2100, none⟩]).1[0]? =
      some ⟨"a@x.com", WeightUnit.ounce, Currency.usd, 24, 1900, 2100,
        some Status.above_range⟩ ∧
    (evaluateSubscriptions ⟨some 2200, some 1, none⟩
        [⟨"a@x.com", WeightUnit.ounce, Currency.usd, 24, 1900, 2100, none⟩]).2[0]? =
      some (some ⟨"a@x.com", "above upper threshold"⟩) := by
  have h := evaluateSubscriptions_per_subscription ⟨some 2200, some 1, none⟩
    [⟨"a@x.com", WeightUnit.ounce, Currency.usd, 24, 1900, 2100, none⟩]
    2200 1 0 ⟨"a@x.com", WeightUnit.ounce, Currency.usd, 24, 1900, 2100, none⟩
    rfl rfl rfl rfl
  have hst : subStatus 2200 1
      ⟨"a@x.com", WeightUnit.ounce, Currency.usd, 24, 1900, 2100, none⟩ =
      Status.above_range := by
    simp only [subStatus, convertPrice, evaluateStatus, reduceIte, reduceCtorEq]
    norm_num
  refine ⟨?_, ?_⟩
  · have := h.1
    rw [hst] at this
    exact this
  · have := h.2.2 rfl (by rw [hst]; simp)
    rw [hst] at this
    simpa [breachedOf] using this

/-- **C2.** When the cache is errored or either reference value has never
been populated, the whole evaluation cycle is skipped: the registry is
returned unchanged and no dispatch is attempted. -/
theorem evaluateSubscriptions_blocked_noop :
    ∀ (st : RefState) (subs : List Subscription),
      cacheBlocked st → evaluateSubscriptions st subs = (subs, []) := by
  intro st subs h
  obtain ⟨p, r, e⟩ := st
  rcases e with _ | e
  · rcases p with _ | pv
    · rcases r with _ | rv <;> rfl
    · rcases r with _ | rv
      · rfl
      · exfalso
        simp [cacheBlocked] at h
  · rcases p with _ | pv <;> rcases r with _ | rv <;> rfl

/-- Witness for C2: an errored cache (values still populated) leaves a
one-element registry untouched and dispatches nothing. -/
theorem evaluateSubscriptions_blocked_noop_witness :
    cacheBlocked ⟨some 2200, some 1, some "fetch failed"⟩ ∧
    evaluateSubscriptions ⟨some 2200, some 1, some "fetch failed"⟩
        [⟨"a@x.com", WeightUnit.ounce, Currency.usd, 24, 1900, 2100, none⟩] =
      ([⟨"a@x.com", WeightUnit.ounce, Currency.usd, 24, 1900, 2100, none⟩], []) :=
  ⟨Or.inl (by simp),
   evaluateSubscriptions_blocked_noop ⟨some 2200, some 1, some "fetch failed"⟩
     [⟨"a@x.com", WeightUnit.ounce, Currency.usd, 24, 1900, 2100, none⟩]
     (Or.inl (by simp))⟩

/-- `stepSubWithDispatch` produces the same updated subscription and the
same dispatch attempt as `stepSub`, whatever the transport configuration
and send outcome: the `try/catch` swallows the send error. -/
lemma stepSubWithDispatch_eq (configured : Bool) (sendFails : String → Bool)
    (price rate : ℚ) (s : Subscription) :
    stepSubWithDispatch configured sendFails price rate s = stepSub price rate s := by
  simp only [stepSubWithDispatch]
  cases h : stepSub price rate s with
  | mk s' a =>
      cases a with
      | none => rfl
      | some al => cases sendAlertEmail configured (sendFails s.email) <;> rfl

/-- **C7.** The dispatch never affects evaluation or subscription state:
an unconfigured transport makes `sendAlertEmail` a successful no-op, and
the cycle with the dispatch effect — including a failing configured send,
whose rejection is caught by the loop's `try/catch` — computes exactly
the same updated registry and dispatch attempts as the pure cycle, for
every configuration and failure pattern, so no send failure aborts the
cycle or loses a `lastStatus` update. -/
theorem dispatch_isolated_from_evaluation :
    (∀ b : Bool, sendAlertEmail false b = Except.ok Unit.unit) ∧
    (∀ (configured : Bool) (sendFails : String → Bool) (st : RefState)
        (subs : List Subscription),
      evaluateSubscriptionsWithDispatch configured sendFails st subs =
        evaluateSubscriptions st subs) := by
  constructor
  · intro b
    rfl
  · intro configured sendFails st subs
    obtain ⟨p, r, e⟩ := st
    rcases e with _ | e
    · rcases p with _ | pv
      · rcases r with _ | rv <;> rfl
      · rcases r with _ | rv
        · rfl
        · simp only [evaluateSubscriptionsWithDispatch, evaluateSubscriptions,
            stepSubWithDispatch_eq]
    · rcases p with _ | pv <;> rcases r with _ | rv <;> rfl

end Aurum
